import Mathlib

/-!
The contact REST handlers of go-mysql-api over a MySQL table.

A shallow embedding of `src/main.go`.  The Go functions are translated one by
one and keep their names.  What the program reaches through libraries is
modelled next to them:

* the `address_contact` table and the SQL driver (`DB`): the rows in storage
  order, the AUTO_INCREMENT counter, a script of the outcomes the driver gives
  to the coming calls (so that every `err != nil` branch of the source can be
  taken) and the log of the statements sent to the server;
* `net/http`: a `ResponseWriter` with its header map, the status line once it
  is written, and the JSON values written to the body;
* `encoding/json`: bodies are JSON values (`Json`), `Decode` follows the
  decoder's rules for a struct target;
* `strconv.Atoi`.

Go's `int` is the 64-bit `int` of the platforms the program is built for.
-/

namespace GoMysqlApi

/-! ## Data model -/

/-- Contact struct. -/
structure Contact where
  ID : Int
  Name : String
  Address : String
  Email : String
deriving DecidableEq, Repr

/-- APIError struct. -/
structure APIError where
  Code : Int
  Message : String
deriving DecidableEq, Repr

/-- Go `error` values the program meets: `sql.ErrNoRows`, which the source
compares against, and any other error, known by its `Error()` text. -/
inductive GoError where
  | ErrNoRows
  | other (msg : String)
deriving DecidableEq, Repr

/-- The text `err.Error()` returns. -/
def GoError.Error : GoError → String
  | .ErrNoRows => "sql: no rows in result set"
  | .other msg => msg

/-! ## JSON values -/

/-- A JSON value.  A number literal without fraction and exponent is `int`;
any other number literal is `real` and keeps its text. -/
inductive Json where
  | null
  | bool (b : Bool)
  | int (n : Int)
  | real (lit : String)
  | str (s : String)
  | arr (xs : List Json)
  | obj (kvs : List (String × Json))

/-- Lower bound of Go's 64-bit `int`. -/
def minInt : Int := -(2 ^ 63)

/-- Upper bound of Go's 64-bit `int`. -/
def maxInt : Int := 2 ^ 63 - 1

/-- What `json.Encoder.Encode` writes for a `Contact` (field order and key
names of the struct tags). -/
def encodeContact (c : Contact) : Json :=
  .obj [("id", .int c.ID), ("name", .str c.Name), ("address", .str c.Address),
    ("email", .str c.Email)]

/-- What `json.Encoder.Encode` writes for an `APIError`. -/
def encodeAPIError (e : APIError) : Json :=
  .obj [("code", .int e.Code), ("message", .str e.Message)]

/-- A Go slice of contacts: `none` is the nil slice, `some xs` a non-nil slice
(possibly of length 0). -/
abbrev ContactSlice := Option (List Contact)

/-- Go's `append(contacts, c)`: appending to the nil slice allocates. -/
def ContactSlice.append (s : ContactSlice) (c : Contact) : ContactSlice :=
  match s with
  | none => some [c]
  | some xs => some (xs ++ [c])

/-- What `json.Encoder.Encode` writes for a `[]Contact`: the nil slice is
encoded as `null`, a non-nil slice as an array. -/
def encodeContacts (s : ContactSlice) : Json :=
  match s with
  | none => .null
  | some xs => .arr (xs.map encodeContact)

/-- The exported fields of `Contact`. -/
inductive Field where
  | ID
  | Name
  | Address
  | Email
deriving DecidableEq, Repr

/-- Case folding of one rune of an object key, as far as it decides a match
with the ASCII field names: ASCII letters fold to upper case, and the two
non-ASCII runes that fold to an ASCII letter are the long s (U+017F) and the
Kelvin sign (U+212A). -/
def foldRune (c : Char) : Char :=
  if c.toNat = 0x17F then 'S'
  else if c.toNat = 0x212A then 'K'
  else c.toUpper

/-- Folded form of an object key. -/
def foldName (key : String) : String :=
  String.mk (key.toList.map foldRune)

/-- The struct field an object key is decoded into: the decoder matches the
key with the `json` tag exactly or, failing that, case-insensitively. -/
def fieldFor (key : String) : Option Field :=
  let k := foldName key
  if k = "ID" then some .ID
  else if k = "NAME" then some .Name
  else if k = "ADDRESS" then some .Address
  else if k = "EMAIL" then some .Email
  else none

/-- Decoding one object member into its field.  A string goes into a string
field, an integer literal within `int` into `ID`; `null` leaves the field as
it is; a value of any other JSON type is an `UnmarshalTypeError`, the decoder
skips the member and goes on. -/
def setField (c : Contact) (f : Field) (v : Json) : Contact :=
  match f, v with
  | .ID, .int n => if minInt ≤ n ∧ n ≤ maxInt then { c with ID := n } else c
  | .Name, .str s => { c with Name := s }
  | .Address, .str s => { c with Address := s }
  | .Email, .str s => { c with Email := s }
  | _, _ => c

/-- Decoding one member `key: v`; a key that matches no field is ignored. -/
def decodeMember (c : Contact) (kv : String × Json) : Contact :=
  match fieldFor kv.1 with
  | some f => setField c f kv.2
  | none => c

/-- Unmarshalling a JSON value into an existing `*Contact`: the members of an
object are decoded in order, each into its field; every other value (`null`,
a literal, an array) leaves the target as it is. -/
def unmarshal (c : Contact) : Json → Contact
  | .obj kvs => kvs.foldl decodeMember c
  | _ => c

/-- The `json.NewDecoder(r.Body).Decode(c)` of the handlers.  `body` is the
first JSON value of the request body, `none` when the body does not start with
a well-formed JSON value (the decoder then fails before it touches the
target).  Both callers drop the error `Decode` returns, so only the target is
returned. -/
def Decode (body : Option Json) (c : Contact) : Contact :=
  match body with
  | none => c
  | some j => unmarshal c j

/-! ## strconv.Atoi -/

/-- The digit loop of `strconv.ParseUint` in base 10 with 64 bits, `n` being the
value read so far: a byte that is no decimal digit is a syntax error, a value
that leaves `uint64` a range error, whichever is met first.  The error is
given by its text. -/
def scanDigits : List Char → Nat → Except String Nat
  | [], n => .ok n
  | ch :: rest, n =>
    if ¬ (ch.isDigit = true) then .error "invalid syntax"
    else if n ≥ (2 ^ 64 - 1) / 10 + 1 then .error "value out of range"
    else if n * 10 + (ch.toNat - '0'.toNat) ≥ 2 ^ 64 then .error "value out of range"
    else scanDigits rest (n * 10 + (ch.toNat - '0'.toNat))

/-- Go's `strconv.Atoi`: an optional sign and one or more decimal digits, the
value within `int`.  (The fast path for short strings and `ParseInt(s, 10, 0)`
agree where both apply.)  `quote` is `strconv.Quote`, which the error text
applies to the input. -/
def Atoi (quote : String → String) (s : String) : Except GoError Int :=
  let cs := s.toList
  let neg := cs.head? = some '-'
  let ds := if cs.head? = some '-' ∨ cs.head? = some '+' then cs.tail else cs
  if ds = [] then
    .error (.other ("strconv.Atoi: parsing " ++ quote s ++ ": invalid syntax"))
  else
    match scanDigits ds 0 with
    | .error msg => .error (.other ("strconv.Atoi: parsing " ++ quote s ++ ": " ++ msg))
    | .ok un =>
      if ¬ neg ∧ un ≥ 2 ^ 63 then
        .error (.other ("strconv.Atoi: parsing " ++ quote s ++ ": value out of range"))
      else if neg ∧ un > 2 ^ 63 then
        .error (.other ("strconv.Atoi: parsing " ++ quote s ++ ": value out of range"))
      else if neg then .ok (-(un : Int))
      else .ok (un : Int)

/-! ## The table and the SQL driver -/

/-- The database behind `*sql.DB`.
* `rows`: the rows of `address_contact`, in the order the engine returns them;
* `autoIncrement`: the identifier the next INSERT is given;
* `faults`: the outcome of each coming driver call, in order: `none` lets the
  call succeed, `some msg` makes it fail with that error text; when the script
  is used up every call succeeds;
* `log`: the SQL texts sent to the server so far. -/
structure DB where
  rows : List Contact
  autoIncrement : Int
  faults : List (Option String)
  log : List String
deriving DecidableEq, Repr

def insertSQL : String := "INSERT INTO address_contact (name, address, email) VALUES (?, ?, ?)"

def selectAllSQL : String := "SELECT id, name, address, email FROM address_contact"

def selectByIdSQL : String :=
  "SELECT id, name, address, email FROM address_contact WHERE id = ? LIMIT 1"

def updateSQL : String :=
  "UPDATE address_contact SET name = ?, address = ?, email = ? WHERE id = ?"

def deleteSQL : String := "DELETE FROM address_contact WHERE id = ?"

/-- One driver call takes the next outcome of the script. -/
def DB.next (db : DB) : DB × Option GoError :=
  match db.faults with
  | [] => (db, none)
  | f :: fs => ({ db with faults := fs }, f.map GoError.other)

/-- Sending a statement to the server: the text is logged, the call takes its
outcome. -/
def DB.send (db : DB) (sql : String) : DB × Option GoError :=
  DB.next { db with log := db.log ++ [sql] }

/-- The call `db.Prepare(sql)`. -/
def Prepare (db : DB) (sql : String) : DB × Option GoError :=
  db.send sql

/-- The call `stm.Exec(name, address, email)` on the prepared INSERT: the new
row gets the AUTO_INCREMENT value, which the result carries. -/
def ExecInsert (db : DB) (name address email : String) : DB × Except GoError Int :=
  match db.next with
  | (db, some err) => (db, .error err)
  | (db, none) =>
    ({ db with
        rows := db.rows ++ [⟨db.autoIncrement, name, address, email⟩],
        autoIncrement := db.autoIncrement + 1 },
      .ok db.autoIncrement)

/-- The call `res.LastInsertId()` on the result of the INSERT. -/
def LastInsertId (db : DB) (res : Int) : DB × Except GoError Int :=
  match db.next with
  | (db, some err) => (db, .error err)
  | (db, none) => (db, .ok res)

/-- The call `stm.Exec(name, address, email, id)` on the prepared UPDATE. -/
def ExecUpdate (db : DB) (name address email : String) (id : Int) : DB × Option GoError :=
  match db.next with
  | (db, some err) => (db, some err)
  | (db, none) =>
    ({ db with rows := db.rows.map fun r =>
        if r.ID = id then { r with Name := name, Address := address, Email := email } else r },
      none)

/-- The call `stm.Exec(id)` on the prepared DELETE. -/
def ExecDelete (db : DB) (id : Int) : DB × Option GoError :=
  match db.next with
  | (db, some err) => (db, some err)
  | (db, none) => ({ db with rows := db.rows.filter fun r => r.ID ≠ id }, none)

/-- The call `db.Query(selectAllSQL)`: the result set, or the error. -/
def Query (db : DB) : DB × Except GoError (List Contact) :=
  match db.send selectAllSQL with
  | (db, some err) => (db, .error err)
  | (db, none) => (db, .ok db.rows)

/-- The call `rows.Scan(...)` on the current row of a result set. -/
def RowsScan (db : DB) (row : Contact) : DB × Except GoError Contact :=
  match db.next with
  | (db, some err) => (db, .error err)
  | (db, none) => (db, .ok row)

/-- The calls `db.QueryRow(selectByIdSQL, id)` and `row.Scan(...)`: a failure
of the query is reported by `Scan`; without a row `Scan` gives
`sql.ErrNoRows`; otherwise the first row with that id is copied out. -/
def QueryRowScan (db : DB) (id : Int) : DB × Except GoError Contact :=
  match db.send selectByIdSQL with
  | (db, some err) => (db, .error err)
  | (db, none) =>
    match db.rows.find? fun r => r.ID = id with
    | none => (db, .error .ErrNoRows)
    | some row => (db, .ok row)

/-! ## DB methods -/

/-- Returns `(*Contact, error)`: `none` is the nil pointer, resp. the nil
error.  The conversion `int(id)` of the `int64` identifier is the identity on
a 64-bit `int`. -/
def createContactFromDb (db : DB) (c : Contact) : DB × Option Contact × Option GoError :=
  match Prepare db insertSQL with
  | (db, some err) => (db, none, some err)
  | (db, none) =>
    match ExecInsert db c.Name c.Address c.Email with
    | (db, .error err) => (db, none, some err)
    | (db, .ok res) =>
      match LastInsertId db res with
      | (db, .error err) => (db, none, some err)
      | (db, .ok id) => (db, some { c with ID := id }, none)

/-- The `for rows.Next()` loop of `getContactsFromDb` over the rows still to
come, `contacts` being the slice built so far. -/
def scanRows (db : DB) (contacts : ContactSlice) :
    List Contact → DB × ContactSlice × Option GoError
  | [] => (db, contacts, none)
  | row :: rest =>
    match RowsScan db row with
    | (db, .error err) => (db, none, some err)
    | (db, .ok c) => scanRows db (contacts.append c) rest

/-- Returns `([]Contact, error)`; `contacts` starts as the nil slice of
`var contacts []Contact`. -/
def getContactsFromDb (db : DB) : DB × ContactSlice × Option GoError :=
  match Query db with
  | (db, .error err) => (db, none, some err)
  | (db, .ok rows) => scanRows db none rows

/-- Returns `(*Contact, error)`; `(none, none)` is the not-found marker
`nil, nil`. -/
def getContactFromDb (db : DB) (id : Int) : DB × Option Contact × Option GoError :=
  match QueryRowScan db id with
  | (db, .error err) =>
    if err = GoError.ErrNoRows then (db, none, none)
    else (db, none, some err)
  | (db, .ok c) => (db, some c, none)

def updateContactFromDb (db : DB) (c : Contact) : DB × Option GoError :=
  match Prepare db updateSQL with
  | (db, some err) => (db, some err)
  | (db, none) => ExecUpdate db c.Name c.Address c.Email c.ID

def deleteContactFromDb (db : DB) (c : Contact) : DB × Option GoError :=
  match Prepare db deleteSQL with
  | (db, some err) => (db, some err)
  | (db, none) =>
    match ExecDelete db c.ID with
    | (db, some err) => (db, some err)
    | (db, none) => (db, none)

/-! ## net/http -/

def StatusOK : Int := 200

def StatusCreated : Int := 201

def StatusNoContent : Int := 204

def StatusBadRequest : Int := 400

def StatusNotFound : Int := 404

def StatusInternalServerError : Int := 500

/-- The `http.ResponseWriter` of one request: the header map, the status line
once it has been written, and the JSON values written to the body, in order. -/
structure ResponseWriter where
  header : List (String × String)
  status : Option Int
  body : List Json

/-- The writer a handler is called with: nothing set, nothing written. -/
def ResponseWriter.new : ResponseWriter := ⟨[], none, []⟩

/-- The call `w.Header().Set(key, value)`. -/
def ResponseWriter.SetHeader (w : ResponseWriter) (key value : String) : ResponseWriter :=
  { w with header := (key, value) :: w.header.filter fun kv => kv.1 ≠ key }

/-- The call `w.WriteHeader(code)`: the first call writes the status line, a
later one is ignored. -/
def ResponseWriter.WriteHeader (w : ResponseWriter) (code : Int) : ResponseWriter :=
  match w.status with
  | none => { w with status := some code }
  | some _ => w

/-- Writing one encoded value to the body: a first write without a status
line sends `200 OK` before it; a 1xx, 204 or 304 response takes no body. -/
def ResponseWriter.Write (w : ResponseWriter) (j : Json) : ResponseWriter :=
  let w := w.WriteHeader StatusOK
  match w.status with
  | some code =>
    if code = 204 ∨ code = 304 ∨ (100 ≤ code ∧ code ≤ 199) then w
    else { w with body := w.body ++ [j] }
  | none => w

/-- The status the client receives: the one written, or `200 OK` when the
handler returns without having written anything. -/
def ResponseWriter.statusCode (w : ResponseWriter) : Int :=
  w.status.getD StatusOK

/-- The part of `*http.Request` the handlers read: the `id` path variable
(`mux.Vars(r)["id"]`) and the first JSON value of the body (see `Decode`). -/
structure Request where
  id : String
  body : Option Json

/-! ## REST methods -/

/-- Writes the status line `http.StatusBadRequest`, then encodes `apiError`. -/
def errorHandler (w : ResponseWriter) (apiError : APIError) : ResponseWriter :=
  let w := w.WriteHeader StatusBadRequest
  w.Write (encodeAPIError apiError)

def getContactHandler (quote : String → String) (db : DB) (w : ResponseWriter) (r : Request) :
    DB × ResponseWriter :=
  let w := w.SetHeader "Content-Type" "application/json"
  match Atoi quote r.id with
  | .error err => (db, errorHandler w ⟨StatusBadRequest, err.Error⟩)
  | .ok id =>
    match getContactFromDb db id with
    | (db, _, some err) => (db, errorHandler w ⟨StatusBadRequest, err.Error⟩)
    | (db, none, none) => (db, errorHandler w ⟨StatusNotFound, "Not Found"⟩)
    | (db, some contact, none) => (db, w.Write (encodeContact contact))

/-- The case of a nil contact without an error, in which `*c` could not be
read, does not occur: `createContactFromDb` returns a contact whenever it
returns no error. -/
def createContactHandler (db : DB) (w : ResponseWriter) (r : Request) : DB × ResponseWriter :=
  let w := w.SetHeader "Content-Type" "application/json"
  let c : Contact := ⟨0, "", "", ""⟩
  let c := Decode r.body c
  match createContactFromDb db c with
  | (db, _, some _) => (db, errorHandler w ⟨StatusBadRequest, "Bad Request"⟩)
  | (db, none, none) => (db, w)
  | (db, some c, none) =>
    let w := w.WriteHeader StatusCreated
    (db, w.Write (encodeContact c))

def updateContactHandler (quote : String → String) (db : DB) (w : ResponseWriter)
    (r : Request) : DB × ResponseWriter :=
  let w := w.SetHeader "Content-Type" "application/json"
  match Atoi quote r.id with
  | .error err => (db, errorHandler w ⟨StatusInternalServerError, err.Error⟩)
  | .ok id =>
    match getContactFromDb db id with
    | (db, _, some err) => (db, errorHandler w ⟨StatusInternalServerError, err.Error⟩)
    | (db, none, none) => (db, errorHandler w ⟨StatusNotFound, "Not Found"⟩)
    | (db, some contact, none) =>
      let contact := Decode r.body contact
      match updateContactFromDb db contact with
      | (db, some err) => (db, errorHandler w ⟨StatusBadRequest, err.Error⟩)
      | (db, none) => (db, w.Write (encodeContact contact))

def deleteContactHandler (quote : String → String) (db : DB) (w : ResponseWriter)
    (r : Request) : DB × ResponseWriter :=
  let w := w.SetHeader "Content-Type" "application/json"
  match Atoi quote r.id with
  | .error err => (db, errorHandler w ⟨StatusInternalServerError, err.Error⟩)
  | .ok id =>
    match getContactFromDb db id with
    | (db, _, some err) => (db, errorHandler w ⟨StatusInternalServerError, err.Error⟩)
    | (db, none, none) => (db, errorHandler w ⟨StatusNotFound, "Not Found"⟩)
    | (db, some contact, none) =>
      match deleteContactFromDb db contact with
      | (db, some err) => (db, errorHandler w ⟨StatusBadRequest, err.Error⟩)
      | (db, none) => (db, w.WriteHeader StatusNoContent)

def getContactsHandler (db : DB) (w : ResponseWriter) (_r : Request) : DB × ResponseWriter :=
  let w := w.SetHeader "Content-Type" "application/json"
  match getContactsFromDb db with
  | (db, _, some err) => (db, errorHandler w ⟨StatusInternalServerError, err.Error⟩)
  | (db, contacts, none) => (db, w.Write (encodeContacts contacts))

/-! ## Vocabulary of the statements -/

/-- The driver lets the next `n` calls succeed. -/
def succeeds : Nat → List (Option String) → Bool
  | 0, _ => true
  | _ + 1, [] => true
  | n + 1, none :: fs => succeeds n fs
  | _ + 1, some _ :: _ => false

/-- The value the last member `key` of an object gives, when it is a string. -/
def lastStr (kvs : List (String × Json)) (key : String) : Option String :=
  kvs.foldl (fun acc kv =>
    match kv with
    | (k, .str s) => if k = key then some s else acc
    | _ => acc) none

/-- Every body that carries an encoded `APIError` goes with status 400. -/
def errorsAre400 (w : ResponseWriter) : Prop :=
  ∀ e : APIError, encodeAPIError e ∈ w.body → w.statusCode = StatusBadRequest

/-- A table of two contacts, used to evaluate the handlers. -/
def sampleDB : DB :=
  ⟨[⟨1, "A", "B", "c@d.com"⟩, ⟨2, "X", "Y", "z@w.org"⟩], 3, [], []⟩

/-- The empty table. -/
def emptyDB : DB := ⟨[], 1, [], []⟩

/-! ## Lemmas on the driver -/

theorem next_of_succeeds {n : Nat} (db : DB) (h : succeeds (n + 1) db.faults = true) :
    db.next = ({ db with faults := db.faults.tail }, none) ∧
      succeeds n db.faults.tail = true := by
  obtain ⟨rows, ai, faults, log⟩ := db
  match faults, h with
  | [], _ => exact ⟨rfl, by cases n <;> rfl⟩
  | none :: fs, h => exact ⟨rfl, by simpa [succeeds] using h⟩
  | some _ :: _, h => simp [succeeds] at h

theorem send_of_succeeds {n : Nat} (db : DB) (sql : String)
    (h : succeeds (n + 1) db.faults = true) :
    db.send sql = ({ db with faults := db.faults.tail, log := db.log ++ [sql] }, none) ∧
      succeeds n db.faults.tail = true := by
  have h2 := next_of_succeeds (n := n) { db with log := db.log ++ [sql] } h
  exact ⟨h2.1, h2.2⟩

theorem next_rows (db : DB) :
    db.next.1.rows = db.rows ∧ db.next.1.autoIncrement = db.autoIncrement ∧
      db.next.1.log = db.log := by
  obtain ⟨rows, ai, faults, log⟩ := db
  cases faults <;> simp [DB.next]

theorem succeeds_mono {n : Nat} (fs : List (Option String)) (h : succeeds (n + 1) fs = true) :
    succeeds n fs = true := by
  induction n generalizing fs with
  | zero => rfl
  | succ k ih =>
    match fs, h with
    | [], _ => rfl
    | none :: fs, h =>
      simp only [succeeds] at h ⊢
      exact ih fs h
    | some _ :: _, h => simp [succeeds] at h

theorem getContactFromDb_found {n : Nat} (db : DB) (id : Int) (c : Contact)
    (h : succeeds (n + 1) db.faults = true)
    (hc : db.rows.find? (fun r => r.ID = id) = some c) :
    getContactFromDb db id =
      ({ db with faults := db.faults.tail, log := db.log ++ [selectByIdSQL] }, some c, none) := by
  have hs := (send_of_succeeds (n := n) db selectByIdSQL h).1
  simp [getContactFromDb, QueryRowScan, hs, hc]

theorem getContactFromDb_missing {n : Nat} (db : DB) (id : Int)
    (h : succeeds (n + 1) db.faults = true)
    (hc : ∀ r ∈ db.rows, r.ID ≠ id) :
    getContactFromDb db id =
      ({ db with faults := db.faults.tail, log := db.log ++ [selectByIdSQL] }, none, none) := by
  have hs := (send_of_succeeds (n := n) db selectByIdSQL h).1
  have hf : db.rows.find? (fun r => r.ID = id) = none := by
    simp only [List.find?_eq_none, decide_eq_true_eq]
    exact hc
  simp [getContactFromDb, QueryRowScan, hs, hf]

/-! ## Lemmas on the response writer -/

theorem errorHandler_fresh (w : ResponseWriter) (e : APIError) (hw : w.status = none) :
    errorHandler w e =
      { w with status := some StatusBadRequest, body := w.body ++ [encodeAPIError e] } := by
  simp [errorHandler, ResponseWriter.WriteHeader, ResponseWriter.Write, hw, StatusBadRequest]

theorem Write_fresh (w : ResponseWriter) (j : Json) (hw : w.status = none) :
    w.Write j = { w with status := some StatusOK, body := w.body ++ [j] } := by
  simp [ResponseWriter.WriteHeader, ResponseWriter.Write, hw, StatusOK]

theorem SetHeader_status (w : ResponseWriter) (k v : String) :
    (w.SetHeader k v).status = w.status ∧ (w.SetHeader k v).body = w.body :=
  ⟨rfl, rfl⟩

theorem WriteHeader_body (w : ResponseWriter) (code : Int) :
    (w.WriteHeader code).body = w.body := by
  unfold ResponseWriter.WriteHeader
  cases w.status <;> rfl

theorem Write_body (w : ResponseWriter) (j : Json) :
    (w.Write j).body = w.body ∨ (w.Write j).body = w.body ++ [j] := by
  unfold ResponseWriter.Write ResponseWriter.WriteHeader
  rcases hst : w.status with _ | code
  · simp [StatusOK]
  · by_cases hc : code = 204 ∨ code = 304 ∨ (100 ≤ code ∧ code ≤ 199)
    · left
      simp [hst, hc]
    · right
      simp [hst, hc]

theorem errorsAre400_errorHandler (w : ResponseWriter) (e : APIError) (hw : w.status = none) :
    errorsAre400 (errorHandler w e) := by
  intro _ _
  rw [errorHandler_fresh w e hw]
  rfl

theorem errorsAre400_Write_contact (w : ResponseWriter) (c : Contact) (hb : w.body = []) :
    errorsAre400 (w.Write (encodeContact c)) := by
  intro e he
  rcases Write_body w (encodeContact c) with h | h
  · rw [h, hb] at he
    simp at he
  · rw [h, hb] at he
    simp [encodeAPIError, encodeContact] at he

theorem errorsAre400_Write_contacts (w : ResponseWriter) (s : ContactSlice) (hb : w.body = []) :
    errorsAre400 (w.Write (encodeContacts s)) := by
  intro e he
  rcases Write_body w (encodeContacts s) with h | h
  · rw [h, hb] at he
    simp at he
  · rw [h, hb] at he
    cases s <;> simp [encodeAPIError, encodeContacts] at he

theorem errorsAre400_of_body_nil (w : ResponseWriter) (hb : w.body = []) : errorsAre400 w := by
  intro e he
  rw [hb] at he
  simp at he

theorem map_update_of_missing (rows : List Contact) (id : Int) (f : Contact → Contact)
    (hmiss : ∀ row ∈ rows, row.ID ≠ id) :
    rows.map (fun r => if r.ID = id then f r else r) = rows := by
  induction rows with
  | nil => rfl
  | cons a t ih =>
    have ha : a.ID ≠ id := hmiss a (List.mem_cons_self a t)
    have ht : ∀ row ∈ t, row.ID ≠ id := fun row hr => hmiss row (List.mem_cons_of_mem a hr)
    simp [ha, ih ht]

theorem filter_of_missing (rows : List Contact) (id : Int)
    (hmiss : ∀ row ∈ rows, row.ID ≠ id) :
    rows.filter (fun r => decide (r.ID ≠ id)) = rows := by
  rw [List.filter_eq_self]
  intro row hr
  simpa using hmiss row hr

theorem filter_length_of_nodup (rows : List Contact) (id : Int)
    (hpk : (rows.map Contact.ID).Nodup) (hex : ∃ row ∈ rows, row.ID = id) :
    (rows.filter (fun r => decide (r.ID ≠ id))).length + 1 = rows.length := by
  induction rows with
  | nil =>
    obtain ⟨row, hr, _⟩ := hex
    simp at hr
  | cons a t ih =>
    rw [List.map_cons, List.nodup_cons] at hpk
    by_cases ha : a.ID = id
    · have ht : ∀ row ∈ t, row.ID ≠ id := by
        intro row hr hrow
        exact hpk.1 (List.mem_map.mpr ⟨row, hr, hrow.trans ha.symm⟩)
      have hf := filter_of_missing t id ht
      rw [List.filter_cons_of_neg (by simp [ha]), hf]
      rfl
    · have hex2 : ∃ row ∈ t, row.ID = id := by
        obtain ⟨row, hr, hrow⟩ := hex
        rcases List.mem_cons.mp hr with h | h
        · exact absurd (h ▸ hrow) ha
        · exact ⟨row, h, hrow⟩
      have := ih hpk.2 hex2
      rw [List.filter_cons_of_pos (by simp [ha])]
      simp only [List.length_cons]
      omega

theorem updateContactFromDb_ok (db : DB) (c : Contact) (hok : succeeds 2 db.faults = true) :
    updateContactFromDb db c =
      ({ rows := db.rows.map fun r =>
            if r.ID = c.ID then { r with Name := c.Name, Address := c.Address, Email := c.Email }
            else r,
         autoIncrement := db.autoIncrement,
         faults := db.faults.tail.tail,
         log := db.log ++ [updateSQL] }, none) := by
  obtain ⟨h1, hok1⟩ := send_of_succeeds (n := 1) db updateSQL hok
  obtain ⟨h2, _⟩ := next_of_succeeds (n := 0)
    { db with faults := db.faults.tail, log := db.log ++ [updateSQL] } hok1
  simp only [updateContactFromDb, Prepare, h1, ExecUpdate, h2]

theorem deleteContactFromDb_ok (db : DB) (c : Contact) (hok : succeeds 2 db.faults = true) :
    deleteContactFromDb db c =
      ({ rows := db.rows.filter fun r => r.ID ≠ c.ID,
         autoIncrement := db.autoIncrement,
         faults := db.faults.tail.tail,
         log := db.log ++ [deleteSQL] }, none) := by
  obtain ⟨h1, hok1⟩ := send_of_succeeds (n := 1) db deleteSQL hok
  obtain ⟨h2, _⟩ := next_of_succeeds (n := 0)
    { db with faults := db.faults.tail, log := db.log ++ [deleteSQL] } hok1
  simp only [deleteContactFromDb, Prepare, h1, ExecDelete, h2]

theorem lastStr_append (l : List (String × Json)) (k key : String) (v : Json) :
    lastStr (l ++ [(k, v)]) key =
      match v with
      | .str s => if k = key then some s else lastStr l key
      | _ => lastStr l key := by
  cases v <;> simp [lastStr, List.foldl_append]

theorem foldl_decodeMember_fields (c : Contact) (kvs : List (String × Json))
    (hkeys : ∀ kv ∈ kvs, kv.1 = "name" ∨ kv.1 = "address" ∨ kv.1 = "email") :
    kvs.foldl decodeMember c =
      ⟨c.ID, (lastStr kvs "name").getD c.Name, (lastStr kvs "address").getD c.Address,
        (lastStr kvs "email").getD c.Email⟩ := by
  induction kvs using List.reverseRecOn with
  | nil => rfl
  | append_singleton l a ih =>
    have hl : ∀ kv ∈ l, kv.1 = "name" ∨ kv.1 = "address" ∨ kv.1 = "email" :=
      fun kv hkv => hkeys kv (List.mem_append_left _ hkv)
    have hk := hkeys a (List.mem_append_right _ (List.mem_singleton_self a))
    obtain ⟨k, v⟩ := a
    simp only at hk
    rw [List.foldl_append, ih hl]
    simp only [List.foldl_cons, List.foldl_nil, lastStr_append]
    have hn : fieldFor "name" = some Field.Name := by decide
    have ha : fieldFor "address" = some Field.Address := by decide
    have he : fieldFor "email" = some Field.Email := by decide
    rcases hk with h | h | h
    · subst h
      cases v <;> simp [decodeMember, hn, setField]
    · subst h
      cases v <;> simp [decodeMember, ha, setField]
    · subst h
      cases v <;> simp [decodeMember, he, setField]

theorem getContactHandler_missing (quote : String → String) (db : DB)
    (w : ResponseWriter) (r : Request) (id : Int) (hw : w.status = none)
    (hid : Atoi quote r.id = .ok id) (hok : succeeds 1 db.faults = true)
    (hmiss : ∀ row ∈ db.rows, row.ID ≠ id) :
    getContactHandler quote db w r =
      ({ db with faults := db.faults.tail, log := db.log ++ [selectByIdSQL] },
        { w.SetHeader "Content-Type" "application/json" with
          status := some 400,
          body := w.body ++ [encodeAPIError ⟨404, "Not Found"⟩] }) := by
  have hs : (w.SetHeader "Content-Type" "application/json").status = none := hw
  have hg := getContactFromDb_missing (n := 0) db id hok hmiss
  simp [getContactHandler, hid, hg, errorHandler_fresh _ _ hs, SetHeader_status,
    StatusBadRequest, StatusNotFound]

theorem createContactFromDb_ok (db : DB) (c : Contact) (hok : succeeds 3 db.faults = true) :
    createContactFromDb db c =
      ({ rows := db.rows ++ [⟨db.autoIncrement, c.Name, c.Address, c.Email⟩],
         autoIncrement := db.autoIncrement + 1,
         faults := db.faults.tail.tail.tail,
         log := db.log ++ [insertSQL] },
        some ⟨db.autoIncrement, c.Name, c.Address, c.Email⟩, none) := by
  obtain ⟨h1, hok2⟩ := send_of_succeeds (n := 2) db insertSQL hok
  obtain ⟨h2, hok1⟩ := next_of_succeeds (n := 1)
    { db with faults := db.faults.tail, log := db.log ++ [insertSQL] } hok2
  obtain ⟨h3, _⟩ := next_of_succeeds (n := 0)
    { rows := db.rows ++ [⟨db.autoIncrement, c.Name, c.Address, c.Email⟩],
      autoIncrement := db.autoIncrement + 1,
      faults := db.faults.tail.tail,
      log := db.log ++ [insertSQL] } hok1
  simp only [createContactFromDb, Prepare, h1, ExecInsert, h2, LastInsertId, h3]

/-! ## getContactFromDb -/

/-- C7: `getContactFromDb` returns the not-found marker (nil contact, nil
error) exactly when the scan of the query gives `sql.ErrNoRows`, which is
exactly when the query goes through and no row of the table has the id; on
any other scan failure it returns that error and no contact; and when the scan
gives a row, that row (a row of the table with the id asked for) is returned
with no error. -/
theorem getContactFromDb_cases (db : DB) (id : Int) :
    ((getContactFromDb db id).2 = (none, none) ↔
        (QueryRowScan db id).2 = .error .ErrNoRows) ∧
    ((QueryRowScan db id).2 = .error .ErrNoRows ↔
        ((db.send selectByIdSQL).2 = none ∧ ∀ r ∈ db.rows, r.ID ≠ id)) ∧
    (∀ err, (QueryRowScan db id).2 = .error err → err ≠ .ErrNoRows →
        (getContactFromDb db id).2 = (none, some err)) ∧
    (∀ c, (QueryRowScan db id).2 = .ok c →
        (getContactFromDb db id).2 = (some c, none) ∧ c ∈ db.rows ∧
          c.ID = id ∧ db.rows.find? (fun r => r.ID = id) = some c) := by
  obtain ⟨rows, ai, faults, log⟩ := db
  have hnone : ∀ l : List Contact, l.find? (fun r => decide (r.ID = id)) = none ↔
      ∀ r ∈ l, r.ID ≠ id := by
    intro l
    simp [List.find?_eq_none]
  rcases faults with _ | ⟨_ | msg, fs⟩
  · rcases hfind : rows.find? (fun r => decide (r.ID = id)) with _ | row
    · have := (hnone rows).mp hfind
      simp [getContactFromDb, QueryRowScan, DB.send, DB.next, hfind]
      exact this
    · have hmem := List.mem_of_find?_eq_some hfind
      have hid := List.find?_some hfind
      simp only [decide_eq_true_eq] at hid
      simp [getContactFromDb, QueryRowScan, DB.send, DB.next, hfind]
      exact ⟨⟨row, hmem, hid⟩, hmem, hid⟩
  · rcases hfind : rows.find? (fun r => decide (r.ID = id)) with _ | row
    · have := (hnone rows).mp hfind
      simp [getContactFromDb, QueryRowScan, DB.send, DB.next, hfind]
      exact this
    · have hmem := List.mem_of_find?_eq_some hfind
      have hid := List.find?_some hfind
      simp only [decide_eq_true_eq] at hid
      simp [getContactFromDb, QueryRowScan, DB.send, DB.next, hfind]
      exact ⟨⟨row, hmem, hid⟩, hmem, hid⟩
  · simp [getContactFromDb, QueryRowScan, DB.send, DB.next]

/-- Witness of C7 on the table of two contacts: id 2 is found, id 999999 gives
the not-found marker. -/
theorem getContactFromDb_cases_witness :
    (getContactFromDb sampleDB 2).2 = (some ⟨2, "X", "Y", "z@w.org"⟩, none) ∧
    (getContactFromDb sampleDB 999999).2 = (none, none) :=
  ⟨((getContactFromDb_cases sampleDB 2).2.2.2 ⟨2, "X", "Y", "z@w.org"⟩ rfl).1,
    (getContactFromDb_cases sampleDB 999999).1.mpr rfl⟩

/-! ## createContactFromDb and createContactHandler -/

/-- C6: whatever id the input contact carries, when the INSERT (prepare and
exec) and the retrieval of the identifier succeed, `createContactFromDb`
returns the contact with the identifier the storage engine generated and the
input's name, address and email, the row inserted is that contact, and the id
the client put in has no influence on the outcome; `createContactHandler`
answers 201 with that contact, built from the decoded body. -/
theorem createContact_generated_id (db : DB) (c : Contact) (w : ResponseWriter) (r : Request)
    (hok : succeeds 3 db.faults = true) (hw : w.status = none) :
    (createContactFromDb db c).2 =
        (some ⟨db.autoIncrement, c.Name, c.Address, c.Email⟩, none) ∧
    (createContactFromDb db c).1.rows =
        db.rows ++ [⟨db.autoIncrement, c.Name, c.Address, c.Email⟩] ∧
    (createContactFromDb db c).1.log = db.log ++ [insertSQL] ∧
    (∀ clientId : Int, createContactFromDb db { c with ID := clientId } =
        createContactFromDb db c) ∧
    (createContactHandler db w r).2.statusCode = StatusCreated ∧
    (createContactHandler db w r).2.body = w.body ++
        [encodeContact ⟨db.autoIncrement, (Decode r.body ⟨0, "", "", ""⟩).Name,
          (Decode r.body ⟨0, "", "", ""⟩).Address, (Decode r.body ⟨0, "", "", ""⟩).Email⟩] ∧
    (createContactHandler db w r).1.rows = db.rows ++
        [⟨db.autoIncrement, (Decode r.body ⟨0, "", "", ""⟩).Name,
          (Decode r.body ⟨0, "", "", ""⟩).Address, (Decode r.body ⟨0, "", "", ""⟩).Email⟩] := by
  refine ⟨?_, ?_, ?_, ?_, ?_, ?_, ?_⟩
  · rw [createContactFromDb_ok db c hok]
  · rw [createContactFromDb_ok db c hok]
  · rw [createContactFromDb_ok db c hok]
  · intro clientId
    rw [createContactFromDb_ok db c hok, createContactFromDb_ok db _ hok]
  · simp [createContactHandler, createContactFromDb_ok db _ hok, ResponseWriter.WriteHeader,
      ResponseWriter.Write, ResponseWriter.SetHeader, hw, StatusCreated,
      ResponseWriter.statusCode]
  · simp [createContactHandler, createContactFromDb_ok db _ hok, ResponseWriter.WriteHeader,
      ResponseWriter.Write, ResponseWriter.SetHeader, hw, StatusCreated]
  · simp [createContactHandler, createContactFromDb_ok db _ hok]

/-- Witness of C6: a POST whose body carries the id 77 on the table of two
contacts, where the next identifier is 3. -/
theorem createContact_generated_id_witness :
    (createContactFromDb sampleDB ⟨77, "N", "M", "e@f.g"⟩).2 =
        (some ⟨3, "N", "M", "e@f.g"⟩, none) ∧
    (createContactHandler sampleDB ResponseWriter.new
        ⟨"", some (.obj [("id", .int 77), ("name", .str "N")])⟩).2.body =
      [encodeContact ⟨3, "N", "", ""⟩] :=
  have h := createContact_generated_id sampleDB ⟨77, "N", "M", "e@f.g"⟩ ResponseWriter.new
    ⟨"", some (.obj [("id", .int 77), ("name", .str "N")])⟩ rfl rfl
  ⟨h.1, h.2.2.2.2.2.1⟩

/-! ## Path ids that are not integers -/

/-- C8: when the path id does not parse as an integer (`Atoi` fails), each of
the three id handlers answers with an error response (the encoded `APIError`,
status 400) and leaves the database as it was, without a single driver call
(same rows, same log, same outcome script); the `code` of the body is 400 for
`getContactHandler` and 500 for `updateContactHandler` and
`deleteContactHandler`. -/
theorem non_integer_id_rejected (quote : String → String) (db : DB) (w : ResponseWriter)
    (r : Request) (err : GoError) (hw : w.status = none)
    (hid : Atoi quote r.id = .error err) :
    ((getContactHandler quote db w r).1 = db ∧
      (getContactHandler quote db w r).2.statusCode = 400 ∧
      (getContactHandler quote db w r).2.body =
        w.body ++ [.obj [("code", .int 400), ("message", .str err.Error)]]) ∧
    ((updateContactHandler quote db w r).1 = db ∧
      (updateContactHandler quote db w r).2.statusCode = 400 ∧
      (updateContactHandler quote db w r).2.body =
        w.body ++ [.obj [("code", .int 500), ("message", .str err.Error)]]) ∧
    ((deleteContactHandler quote db w r).1 = db ∧
      (deleteContactHandler quote db w r).2.statusCode = 400 ∧
      (deleteContactHandler quote db w r).2.body =
        w.body ++ [.obj [("code", .int 500), ("message", .str err.Error)]]) := by
  have hs : (w.SetHeader "Content-Type" "application/json").status = none := hw
  refine ⟨?_, ?_, ?_⟩
  · simp [getContactHandler, hid, errorHandler_fresh _ _ hs, SetHeader_status, StatusBadRequest,
      ResponseWriter.statusCode, encodeAPIError]
  · simp [updateContactHandler, hid, errorHandler_fresh _ _ hs, SetHeader_status,
      StatusInternalServerError, StatusBadRequest, ResponseWriter.statusCode, encodeAPIError]
  · simp [deleteContactHandler, hid, errorHandler_fresh _ _ hs, SetHeader_status,
      StatusInternalServerError, StatusBadRequest, ResponseWriter.statusCode, encodeAPIError]

/-- Witness of C8: the path id `abc`. -/
theorem non_integer_id_rejected_witness :
    (getContactHandler (fun s => s) sampleDB ResponseWriter.new ⟨"abc", none⟩).2.body =
      [.obj [("code", .int 400),
        ("message", .str "strconv.Atoi: parsing abc: invalid syntax")]] ∧
    (deleteContactHandler (fun s => s) sampleDB ResponseWriter.new ⟨"abc", none⟩).1 =
      sampleDB :=
  have h := non_integer_id_rejected (fun s => s) sampleDB ResponseWriter.new ⟨"abc", none⟩
    (.other "strconv.Atoi: parsing abc: invalid syntax") rfl rfl
  ⟨h.1.2.2, h.2.2.1⟩

/-! ## errorHandler -/

/-- C2: for every `APIError`, whatever its `Code`, `errorHandler` on a writer
whose status line is not yet written writes transport status 400 and appends
to the body the JSON object carrying exactly that `Code` and `Message` (the
encoding determines both); hence in each of the five handlers, called with a
fresh writer, a response whose body carries an encoded `APIError` has
transport status 400. -/
theorem errorHandler_always_400 :
    (∀ (w : ResponseWriter) (e : APIError), w.status = none →
      (errorHandler w e).statusCode = 400 ∧
      (errorHandler w e).body = w.body ++ [.obj [("code", .int e.Code), ("message", .str e.Message)]]) ∧
    (∀ e1 e2 : APIError, encodeAPIError e1 = encodeAPIError e2 → e1 = e2) ∧
    (∀ (quote : String → String) (db : DB) (r : Request) (e : APIError),
      (encodeAPIError e ∈ (getContactsHandler db ResponseWriter.new r).2.body →
        (getContactsHandler db ResponseWriter.new r).2.statusCode = 400) ∧
      (encodeAPIError e ∈ (createContactHandler db ResponseWriter.new r).2.body →
        (createContactHandler db ResponseWriter.new r).2.statusCode = 400) ∧
      (encodeAPIError e ∈ (getContactHandler quote db ResponseWriter.new r).2.body →
        (getContactHandler quote db ResponseWriter.new r).2.statusCode = 400) ∧
      (encodeAPIError e ∈ (updateContactHandler quote db ResponseWriter.new r).2.body →
        (updateContactHandler quote db ResponseWriter.new r).2.statusCode = 400) ∧
      (encodeAPIError e ∈ (deleteContactHandler quote db ResponseWriter.new r).2.body →
        (deleteContactHandler quote db ResponseWriter.new r).2.statusCode = 400)) := by
  have hs : (ResponseWriter.new.SetHeader "Content-Type" "application/json").status = none :=
    rfl
  have hb : (ResponseWriter.new.SetHeader "Content-Type" "application/json").body = [] := rfl
  refine ⟨?_, ?_, ?_⟩
  · intro w e hw
    rw [errorHandler_fresh w e hw]
    exact ⟨rfl, rfl⟩
  · intro e1 e2 h
    cases e1
    cases e2
    simpa [encodeAPIError] using h
  · intro quote db r e
    refine ⟨?_, ?_, ?_, ?_, ?_⟩
    · have h : errorsAre400 (getContactsHandler db ResponseWriter.new r).2 := by
        unfold getContactsHandler
        split
        · exact errorsAre400_errorHandler _ _ hs
        · exact errorsAre400_Write_contacts _ _ hb
      exact h e
    · have h : errorsAre400 (createContactHandler db ResponseWriter.new r).2 := by
        unfold createContactHandler
        dsimp only
        split
        · exact errorsAre400_errorHandler _ _ hs
        · exact errorsAre400_of_body_nil _ hb
        · exact errorsAre400_Write_contact _ _ ((WriteHeader_body _ _).trans hb)
      exact h e
    · have h : errorsAre400 (getContactHandler quote db ResponseWriter.new r).2 := by
        unfold getContactHandler
        split
        · exact errorsAre400_errorHandler _ _ hs
        · split
          · exact errorsAre400_errorHandler _ _ hs
          · exact errorsAre400_errorHandler _ _ hs
          · exact errorsAre400_Write_contact _ _ hb
      exact h e
    · have h : errorsAre400 (updateContactHandler quote db ResponseWriter.new r).2 := by
        unfold updateContactHandler
        split
        · exact errorsAre400_errorHandler _ _ hs
        · split
          · exact errorsAre400_errorHandler _ _ hs
          · exact errorsAre400_errorHandler _ _ hs
          · dsimp only
            split
            · exact errorsAre400_errorHandler _ _ hs
            · exact errorsAre400_Write_contact _ _ hb
      exact h e
    · have h : errorsAre400 (deleteContactHandler quote db ResponseWriter.new r).2 := by
        unfold deleteContactHandler
        split
        · exact errorsAre400_errorHandler _ _ hs
        · split
          · exact errorsAre400_errorHandler _ _ hs
          · exact errorsAre400_errorHandler _ _ hs
          · dsimp only
            split
            · exact errorsAre400_errorHandler _ _ hs
            · exact errorsAre400_of_body_nil _ ((WriteHeader_body _ _).trans hb)
      exact h e

/-- Witness of C2: the 404 and the 500 error both leave with status 400. -/
theorem errorHandler_always_400_witness :
    (errorHandler ResponseWriter.new ⟨404, "Not Found"⟩).statusCode = 400 ∧
    (errorHandler ResponseWriter.new ⟨500, "driver: bad connection"⟩).statusCode = 400 :=
  ⟨(errorHandler_always_400.1 ResponseWriter.new ⟨404, "Not Found"⟩ rfl).1,
    (errorHandler_always_400.1 ResponseWriter.new ⟨500, "driver: bad connection"⟩ rfl).1⟩

/-! ## getContactsFromDb and getContactsHandler on the empty table -/

/-- C1 (what the code does): on every database whose table has no rows and
whose query goes through, `getContactsFromDb` returns the nil slice (and no
error), and `getContactsHandler` answers with status 200 and the body `null`,
which is not the empty array. -/
theorem getContacts_empty_table_null (db : DB) (w : ResponseWriter) (r : Request)
    (hrows : db.rows = []) (hok : succeeds 1 db.faults = true) (hw : w.status = none) :
    (getContactsFromDb db).2 = (none, none) ∧
    (getContactsHandler db w r).2.statusCode = StatusOK ∧
    (getContactsHandler db w r).2.body = w.body ++ [Json.null] ∧
    (getContactsHandler db w r).2.body ≠ w.body ++ [Json.arr []] := by
  have hs := (send_of_succeeds (n := 0) db selectAllSQL hok).1
  have hg : getContactsFromDb db =
      ({ db with faults := db.faults.tail, log := db.log ++ [selectAllSQL] }, none, none) := by
    simp [getContactsFromDb, Query, hs, hrows, scanRows]
  have hs2 : (w.SetHeader "Content-Type" "application/json").status = none := hw
  have hbody : (getContactsHandler db w r).2 =
      { w.SetHeader "Content-Type" "application/json" with
        status := some StatusOK, body := w.body ++ [Json.null] } := by
    simp [getContactsHandler, hg, Write_fresh _ _ hs2, encodeContacts, SetHeader_status]
  refine ⟨by rw [hg], ?_, ?_, ?_⟩
  · rw [hbody]
    rfl
  · rw [hbody]
  · rw [hbody]
    simp

/-- Witness of C1: the empty table. -/
theorem getContacts_empty_table_null_witness :
    (getContactsFromDb emptyDB).2 = (none, none) ∧
    (getContactsHandler emptyDB ResponseWriter.new ⟨"", none⟩).2.body = [Json.null] :=
  have h := getContacts_empty_table_null emptyDB ResponseWriter.new ⟨"", none⟩ rfl rfl rfl
  ⟨h.1, h.2.2.1⟩

/-! ## getContactHandler on an id without a row -/

/-- C3 as stated fails: on the table of two contacts, GET of the id 999999,
which no row has, leaves with status 400, not 404. -/
theorem getContact_missing_status_not_404 :
    (∀ row ∈ sampleDB.rows, row.ID ≠ 999999) ∧
    (getContactHandler (fun s => s) sampleDB ResponseWriter.new
        ⟨"999999", none⟩).2.statusCode = 400 ∧
    ¬ (getContactHandler (fun s => s) sampleDB ResponseWriter.new
        ⟨"999999", none⟩).2.statusCode = 404 := by
  refine ⟨by decide, rfl, ?_⟩
  have h : (getContactHandler (fun s => s) sampleDB ResponseWriter.new
      ⟨"999999", none⟩).2.statusCode = 400 := rfl
  rw [h]
  decide

/-- C3, amended: for every path id that parses to an integer no row of the
table has, when the query goes through, `getContactHandler` answers with
transport status 400 and a body whose `code` is 404 and whose `message` is
"Not Found"; the table is left as it was. -/
theorem getContact_missing_not_found (quote : String → String) (db : DB)
    (w : ResponseWriter) (r : Request) (id : Int) (hw : w.status = none)
    (hid : Atoi quote r.id = .ok id) (hok : succeeds 1 db.faults = true)
    (hmiss : ∀ row ∈ db.rows, row.ID ≠ id) :
    (getContactHandler quote db w r).2.statusCode = 400 ∧
    (getContactHandler quote db w r).2.body =
      w.body ++ [.obj [("code", .int 404), ("message", .str "Not Found")]] ∧
    (getContactHandler quote db w r).1.rows = db.rows := by
  rw [getContactHandler_missing quote db w r id hw hid hok hmiss]
  exact ⟨rfl, rfl, rfl⟩

/-- Witness of C3 amended: GET of 999999 on the table of two contacts. -/
theorem getContact_missing_not_found_witness :
    (getContactHandler (fun s => s) sampleDB ResponseWriter.new
        ⟨"999999", none⟩).2.body =
      [.obj [("code", .int 404), ("message", .str "Not Found")]] :=
  (getContact_missing_not_found (fun s => s) sampleDB ResponseWriter.new ⟨"999999", none⟩
    999999 rfl rfl rfl (by decide)).2.1

/-! ## updateContactHandler and an `id` key in the body -/

/-- C5 (what the code does): on the table of two contacts, PUT to the path id
1 with the body `{"id": 2, "name": "N"}` leaves row 1 as it was, overwrites
row 2 with the fields of row 1 and the new name, and answers with id 2. -/
theorem update_body_id_redirects :
    (updateContactHandler (fun s => s) sampleDB ResponseWriter.new
        ⟨"1", some (.obj [("id", .int 2), ("name", .str "N")])⟩).1.rows =
      [⟨1, "A", "B", "c@d.com"⟩, ⟨2, "N", "B", "c@d.com"⟩] ∧
    (updateContactHandler (fun s => s) sampleDB ResponseWriter.new
        ⟨"1", some (.obj [("id", .int 2), ("name", .str "N")])⟩).2.body =
      [encodeContact ⟨2, "N", "B", "c@d.com"⟩] ∧
    (updateContactHandler (fun s => s) sampleDB ResponseWriter.new
        ⟨"1", some (.obj [("id", .int 2), ("name", .str "N")])⟩).2.statusCode = 200 :=
  ⟨rfl, rfl, rfl⟩

/-! ## Update and delete of an id without a row -/

/-- C9: for every path id that parses to an integer no row of the table has,
when the driver calls go through, `updateContactHandler` and
`deleteContactHandler` answer with the 404 "Not Found" error (sent, as every
error, with transport status 400) after the existence pre-check: the only
statement they send is the SELECT by id, so neither the UPDATE nor the DELETE
is issued, and the table is left as it was.  At the storage layer,
`updateContactFromDb` and `deleteContactFromDb` called with a contact whose id
no row has return no error and leave the table as it was. -/
theorem update_delete_missing_id (quote : String → String) (db : DB) (w : ResponseWriter)
    (r : Request) (id : Int) (c : Contact) (hw : w.status = none)
    (hid : Atoi quote r.id = .ok id) (hok : succeeds 2 db.faults = true)
    (hmiss : ∀ row ∈ db.rows, row.ID ≠ id) (hc : ∀ row ∈ db.rows, row.ID ≠ c.ID) :
    ((updateContactHandler quote db w r).2.body =
        w.body ++ [encodeAPIError ⟨404, "Not Found"⟩] ∧
      (updateContactHandler quote db w r).2.statusCode = 400 ∧
      (updateContactHandler quote db w r).1.log = db.log ++ [selectByIdSQL] ∧
      updateSQL ∉ [selectByIdSQL] ∧
      (updateContactHandler quote db w r).1.rows = db.rows) ∧
    ((deleteContactHandler quote db w r).2.body =
        w.body ++ [encodeAPIError ⟨404, "Not Found"⟩] ∧
      (deleteContactHandler quote db w r).2.statusCode = 400 ∧
      (deleteContactHandler quote db w r).1.log = db.log ++ [selectByIdSQL] ∧
      deleteSQL ∉ [selectByIdSQL] ∧
      (deleteContactHandler quote db w r).1.rows = db.rows) ∧
    ((updateContactFromDb db c).2 = none ∧ (updateContactFromDb db c).1.rows = db.rows) ∧
    ((deleteContactFromDb db c).2 = none ∧ (deleteContactFromDb db c).1.rows = db.rows) := by
  have hs : (w.SetHeader "Content-Type" "application/json").status = none := hw
  have hg := getContactFromDb_missing (n := 0) db id (succeeds_mono _ hok) hmiss
  refine ⟨?_, ?_, ?_, ?_⟩
  · simp [updateContactHandler, hid, hg, errorHandler_fresh _ _ hs, SetHeader_status,
      ResponseWriter.statusCode, StatusBadRequest, StatusNotFound]
    decide
  · simp [deleteContactHandler, hid, hg, errorHandler_fresh _ _ hs, SetHeader_status,
      ResponseWriter.statusCode, StatusBadRequest, StatusNotFound]
    decide
  · rw [updateContactFromDb_ok db c hok]
    exact ⟨rfl, map_update_of_missing db.rows c.ID _ hc⟩
  · rw [deleteContactFromDb_ok db c hok]
    exact ⟨rfl, filter_of_missing db.rows c.ID hc⟩

/-- Witness of C9: the id 7 on the table of two contacts. -/
theorem update_delete_missing_id_witness :
    (updateContactHandler (fun s => s) sampleDB ResponseWriter.new
        ⟨"7", some (.obj [("name", .str "N")])⟩).2.body =
      [encodeAPIError ⟨404, "Not Found"⟩] ∧
    (deleteContactFromDb sampleDB ⟨7, "N", "", ""⟩).1.rows = sampleDB.rows :=
  have h := update_delete_missing_id (fun s => s) sampleDB ResponseWriter.new
    ⟨"7", some (.obj [("name", .str "N")])⟩ 7 ⟨7, "N", "", ""⟩ rfl rfl rfl
    (by decide) (by decide)
  ⟨h.1.1, h.2.2.2.2⟩

/-! ## Delete of an existing contact -/

/-- C10: for every table and every path id that parses to the id of a row,
when the driver calls go through, `deleteContactHandler` answers with status
204 and writes nothing to the body, and the table afterwards is the table
before without the rows of that id, the other rows unchanged and in order
(under the primary key this is exactly one row less); a following
`getContactHandler` on the same id gives the 404 "Not Found" response: the
body carries code 404 and message "Not Found", and it is sent, as every error,
with transport status 400. -/
theorem delete_existing_then_get (quote : String → String) (db : DB)
    (w w2 : ResponseWriter) (r : Request) (id : Int) (hw : w.status = none)
    (hw2 : w2.status = none) (hid : Atoi quote r.id = .ok id)
    (hok : succeeds 4 db.faults = true) (hex : ∃ row ∈ db.rows, row.ID = id) :
    (deleteContactHandler quote db w r).2.statusCode = 204 ∧
    (deleteContactHandler quote db w r).2.body = w.body ∧
    (deleteContactHandler quote db w r).1.rows = db.rows.filter (fun row => row.ID ≠ id) ∧
    (∀ row ∈ db.rows, row.ID ≠ id → row ∈ (deleteContactHandler quote db w r).1.rows) ∧
    (∀ row ∈ (deleteContactHandler quote db w r).1.rows, row.ID ≠ id) ∧
    ((db.rows.map Contact.ID).Nodup →
      (deleteContactHandler quote db w r).1.rows.length + 1 = db.rows.length) ∧
    (getContactHandler quote (deleteContactHandler quote db w r).1 w2 r).2.body =
      w2.body ++ [encodeAPIError ⟨404, "Not Found"⟩] ∧
    (getContactHandler quote (deleteContactHandler quote db w r).1 w2 r).2.statusCode = 400 := by
  have hs : (w.SetHeader "Content-Type" "application/json").status = none := hw
  obtain ⟨c, hfind⟩ : ∃ c, db.rows.find? (fun r => decide (r.ID = id)) = some c := by
    rcases hf : db.rows.find? (fun r => decide (r.ID = id)) with _ | c
    · obtain ⟨row, hr, hrow⟩ := hex
      have := List.find?_eq_none.mp hf row hr
      simp [hrow] at this
    · exact ⟨c, hf⟩
  have hcid : c.ID = id := by simpa using List.find?_some hfind
  have hok3 := succeeds_mono _ hok
  have hok2 := succeeds_mono _ hok3
  have hok1 := succeeds_mono _ hok2
  have hg := getContactFromDb_found (n := 0) db id c hok1 hfind
  have hok3t : succeeds 3 db.faults.tail = true := (next_of_succeeds db hok).2
  have hok2t : succeeds 2 db.faults.tail = true := succeeds_mono _ hok3t
  have hd := deleteContactFromDb_ok
    { db with faults := db.faults.tail, log := db.log ++ [selectByIdSQL] } c hok2t
  have hres : deleteContactHandler quote db w r =
      ({ rows := db.rows.filter fun r => r.ID ≠ id,
         autoIncrement := db.autoIncrement,
         faults := db.faults.tail.tail.tail,
         log := db.log ++ [selectByIdSQL] ++ [deleteSQL] },
        (w.SetHeader "Content-Type" "application/json").WriteHeader StatusNoContent) := by
    simp only [deleteContactHandler, hid, hg, hd, hcid]
  have hafter : ∀ row ∈ db.rows.filter (fun r => decide (r.ID ≠ id)), row.ID ≠ id := by
    intro row hr
    simpa using (List.mem_filter.mp hr).2
  have hok1a : succeeds 1 db.faults.tail.tail.tail = true := by
    have h3 := (next_of_succeeds (n := 2) { db with faults := db.faults.tail } hok3t).2
    have h2 := (next_of_succeeds (n := 1) { db with faults := db.faults.tail.tail } h3).2
    exact h2
  rw [hres]
  refine ⟨?_, ?_, rfl, ?_, hafter, ?_, ?_⟩
  · simp [ResponseWriter.WriteHeader, ResponseWriter.SetHeader, hw, ResponseWriter.statusCode,
      StatusNoContent]
  · simp [WriteHeader_body, SetHeader_status]
  · intro row hr hne
    exact List.mem_filter.mpr ⟨hr, by simpa using hne⟩
  · intro hpk
    exact filter_length_of_nodup db.rows id hpk hex
  · rw [getContactHandler_missing quote
      { rows := db.rows.filter fun r => r.ID ≠ id,
        autoIncrement := db.autoIncrement,
        faults := db.faults.tail.tail.tail,
        log := db.log ++ [selectByIdSQL] ++ [deleteSQL] } w2 r id hw2 hid hok1a hafter]
    exact ⟨rfl, rfl⟩

/-- Witness of C10: DELETE of id 1 on the table of two contacts, then GET. -/
theorem delete_existing_then_get_witness :
    (deleteContactHandler (fun s => s) sampleDB ResponseWriter.new ⟨"1", none⟩).2.statusCode
      = 204 ∧
    (deleteContactHandler (fun s => s) sampleDB ResponseWriter.new ⟨"1", none⟩).1.rows =
      [⟨2, "X", "Y", "z@w.org"⟩] :=
  have h := delete_existing_then_get (fun s => s) sampleDB ResponseWriter.new
    ResponseWriter.new ⟨"1", none⟩ 1 rfl rfl rfl rfl ⟨⟨1, "A", "B", "c@d.com"⟩, by decide, rfl⟩
  ⟨h.1, h.2.2.1⟩

/-! ## Partial update -/

/-- C4 as stated fails: on the table of two contacts, PUT to the id 1 with the
body `{"name": null, "address": 7}`, an object with two of the three keys,
answers 200 with the stored name and address: neither key takes the value the
body gives it, and the row is left as it was. -/
theorem update_non_text_value_ignored :
    (updateContactHandler (fun s => s) sampleDB ResponseWriter.new
        ⟨"1", some (.obj [("name", .null), ("address", .int 7)])⟩).2.body =
      [.obj [("id", .int 1), ("name", .str "A"), ("address", .str "B"),
        ("email", .str "c@d.com")]] ∧
    (updateContactHandler (fun s => s) sampleDB ResponseWriter.new
        ⟨"1", some (.obj [("name", .null), ("address", .int 7)])⟩).2.statusCode = 200 ∧
    (updateContactHandler (fun s => s) sampleDB ResponseWriter.new
        ⟨"1", some (.obj [("name", .null), ("address", .int 7)])⟩).1.rows = sampleDB.rows ∧
    Json.str "A" ≠ Json.null ∧ Json.str "B" ≠ Json.int 7 :=
  ⟨rfl, rfl, rfl, by simp, by simp⟩

/-- C4, amended: for every stored contact (the row the path id selects), when
the driver calls go through, and every PUT body that is a JSON object whose
keys are among name/address/email, `updateContactHandler` answers 200 with,
and stores in that row, the contact in which each field takes the text value
the body gives its key (`lastStr`: the last member with that key and a text
value) and keeps the value the stored record had before the request when the
body gives none (the key is omitted, or given only with `null` or a value that
is not text); a following fetch of the id returns that contact. -/
theorem update_keeps_omitted_fields (quote : String → String) (db : DB)
    (w : ResponseWriter) (r : Request) (id : Int) (c : Contact)
    (kvs : List (String × Json)) (hw : w.status = none)
    (hid : Atoi quote r.id = .ok id) (hok : succeeds 4 db.faults = true)
    (hc : db.rows.find? (fun row => row.ID = id) = some c)
    (hbody : r.body = some (.obj kvs))
    (hkeys : ∀ kv ∈ kvs, kv.1 = "name" ∨ kv.1 = "address" ∨ kv.1 = "email") :
    (updateContactHandler quote db w r).2.statusCode = 200 ∧
    (updateContactHandler quote db w r).2.body = w.body ++
      [encodeContact ⟨id, (lastStr kvs "name").getD c.Name,
        (lastStr kvs "address").getD c.Address, (lastStr kvs "email").getD c.Email⟩] ∧
    (updateContactHandler quote db w r).1.rows = db.rows.map (fun row =>
      if row.ID = id then
        ⟨row.ID, (lastStr kvs "name").getD c.Name, (lastStr kvs "address").getD c.Address,
          (lastStr kvs "email").getD c.Email⟩
      else row) ∧
    (getContactFromDb (updateContactHandler quote db w r).1 id).2 =
      (some ⟨id, (lastStr kvs "name").getD c.Name, (lastStr kvs "address").getD c.Address,
        (lastStr kvs "email").getD c.Email⟩, none) := by
  have hs : (w.SetHeader "Content-Type" "application/json").status = none := hw
  have hcid : c.ID = id := by simpa using List.find?_some hc
  have hok3 := succeeds_mono _ hok
  have hok2 := succeeds_mono _ hok3
  have hok1 := succeeds_mono _ hok2
  have hg := getContactFromDb_found (n := 0) db id c hok1 hc
  have hok3t : succeeds 3 db.faults.tail = true := (next_of_succeeds db hok).2
  have hok2t : succeeds 2 db.faults.tail = true := succeeds_mono _ hok3t
  have hdec : Decode r.body c =
      ⟨id, (lastStr kvs "name").getD c.Name, (lastStr kvs "address").getD c.Address,
        (lastStr kvs "email").getD c.Email⟩ := by
    rw [hbody]
    simp only [Decode, unmarshal]
    rw [foldl_decodeMember_fields c kvs hkeys, hcid]
  have hu := updateContactFromDb_ok
    { db with faults := db.faults.tail, log := db.log ++ [selectByIdSQL] }
    ⟨id, (lastStr kvs "name").getD c.Name, (lastStr kvs "address").getD c.Address,
        (lastStr kvs "email").getD c.Email⟩ hok2t
  have hres : updateContactHandler quote db w r =
      ({ rows := db.rows.map fun row =>
            if row.ID = id then
              ⟨row.ID, (lastStr kvs "name").getD c.Name, (lastStr kvs "address").getD c.Address,
                (lastStr kvs "email").getD c.Email⟩
            else row,
         autoIncrement := db.autoIncrement,
         faults := db.faults.tail.tail.tail,
         log := db.log ++ [selectByIdSQL] ++ [updateSQL] },
        (w.SetHeader "Content-Type" "application/json").Write
          (encodeContact ⟨id, (lastStr kvs "name").getD c.Name,
            (lastStr kvs "address").getD c.Address, (lastStr kvs "email").getD c.Email⟩)) := by
    simp only [updateContactHandler, hid, hg, hdec, hu]
  have hok1a : succeeds 1 db.faults.tail.tail.tail = true := by
    have h3 := (next_of_succeeds (n := 2) { db with faults := db.faults.tail } hok3t).2
    have h2 := (next_of_succeeds (n := 1) { db with faults := db.faults.tail.tail } h3).2
    exact h2
  rw [hres]
  refine ⟨?_, ?_, rfl, ?_⟩
  · rw [Write_fresh _ _ hs]
    rfl
  · rw [Write_fresh _ _ hs]
    rfl
  · have hfind : (db.rows.map fun row =>
          if row.ID = id then
            (⟨row.ID, (lastStr kvs "name").getD c.Name, (lastStr kvs "address").getD c.Address,
              (lastStr kvs "email").getD c.Email⟩ : Contact)
          else row).find? (fun row => decide (row.ID = id)) =
        some ⟨id, (lastStr kvs "name").getD c.Name, (lastStr kvs "address").getD c.Address,
          (lastStr kvs "email").getD c.Email⟩ := by
      rw [List.find?_map]
      have hfun : ((fun row : Contact => decide (row.ID = id)) ∘ fun row : Contact =>
          if row.ID = id then
            (⟨row.ID, (lastStr kvs "name").getD c.Name, (lastStr kvs "address").getD c.Address,
              (lastStr kvs "email").getD c.Email⟩ : Contact)
          else row) = fun row : Contact => decide (row.ID = id) := by
        funext row
        by_cases h : row.ID = id <;> simp [h]
      rw [hfun, hc]
      simp [hcid]
    rw [getContactFromDb_found (n := 0) _ id _ hok1a hfind]

/-- Witness of C4 amended: the round trip of the spec, the contact with name
`A`, address `B` and email `c@d.com` updated with the body `{"name": "A2"}`. -/
theorem update_keeps_omitted_fields_witness :
    (updateContactHandler (fun s => s) sampleDB ResponseWriter.new
        ⟨"1", some (.obj [("name", .str "A2")])⟩).2.body =
      [encodeContact ⟨1, "A2", "B", "c@d.com"⟩] ∧
    (updateContactHandler (fun s => s) sampleDB ResponseWriter.new
        ⟨"1", some (.obj [("name", .str "A2")])⟩).1.rows =
      [⟨1, "A2", "B", "c@d.com"⟩, ⟨2, "X", "Y", "z@w.org"⟩] :=
  have h := update_keeps_omitted_fields (fun s => s) sampleDB ResponseWriter.new
    ⟨"1", some (.obj [("name", .str "A2")])⟩ 1 ⟨1, "A", "B", "c@d.com"⟩
    [("name", .str "A2")] rfl rfl rfl rfl rfl
    (by
      intro kv hkv
      rw [List.mem_singleton.mp hkv]
      exact Or.inl rfl)
  ⟨h.2.1, h.2.2.1⟩

end GoMysqlApi
